import Mathlib

/-!
Verification of `etc/ci/taskcluster/decision-task.py` from the servo
repository: a CI decision-task generator that constructs two task
descriptors (a dev-mode build task and a tidy task) and submits them to an
external `DecisionTask` collaborator.

The script is embedded shallowly: the module-level constants become Lean
definitions, each `create_task_with_in_tree_dockerfile` call site becomes a
`TaskDescriptor` value, and `main` becomes a function that threads an
abstract submission collaborator (state plus optional error) through the
two calls in source order.  Python exceptions are modelled by the
`Option ε` error component: an error from the first call short-circuits the
rest of `main`, exactly as an uncaught Python exception would.
-/

namespace DecisionTaskScript

/-- Embedding of `CARGO_CACHE_SCOPES` (decision-task.py lines 9-12). -/
def CARGO_CACHE_SCOPES : List String :=
  ["docker-worker:cache:cargo-registry-cache",
   "docker-worker:cache:cargo-git-cache"]

/-- Embedding of `CARGO_CACHE` (decision-task.py lines 14-17).  Python dicts
are embedded as association lists in insertion order. -/
def CARGO_CACHE : List (String × String) :=
  [("cargo-registry-cache", "/root/.cargo/registry"),
   ("cargo-git-cache", "/root/.cargo/git")]

/-- Embedding of `BUILD_ENV` (decision-task.py lines 19-24). -/
def BUILD_ENV : List (String × String) :=
  [("RUST_BACKTRACE", "1"),
   ("RUSTFLAGS", "-Dwarnings"),
   ("CARGO_INCREMENTAL", "0"),
   ("SCCACHE_IDLE_TIMEOUT", "1200")]

/-- `b` starts with the POSIX path separator `/` (Python's
`b.startswith(sep)`). -/
def startsWithSep (b : String) : Bool :=
  match b.data with
  | [] => false
  | c :: _ => c == '/'

/-- `a` ends with the POSIX path separator `/` (Python's
`a.endswith(sep)`). -/
def endsWithSep (a : String) : Bool :=
  match a.data.getLast? with
  | some c => c == '/'
  | none => false

/-- Embedding of `os.path.join` for two components, as used by the script
(POSIX semantics: an absolute second component replaces the first; a
separator is inserted only when the first component is non-empty and does
not already end in a separator). -/
def osPathJoin (a b : String) : String :=
  if startsWithSep b then b
  else if a == "" || endsWithSep a then a ++ b
  else a ++ "/" ++ b

/-- Embedding of the helper `dockerfile(name)` (decision-task.py lines
59-60): `os.path.join(os.path.dirname(__file__), name + ".dockerfile")`.
The directory of the script (`os.path.dirname(__file__)`) is a parameter,
since it depends on where the script is installed.  The helper is a total
pure function of strings: it performs no filesystem access and no
validation. -/
def dockerfile (scriptDir name : String) : String :=
  osPathJoin scriptDir (name ++ ".dockerfile")

/-- One task descriptor: the keyword arguments of a single
`create_task_with_in_tree_dockerfile` call.  The `env` field is an
`Option` because the tidy call omits the `env` keyword entirely. -/
structure TaskDescriptor where
  task_name : String
  command : String
  env : Option (List (String × String))
  dockerfile : String
  max_run_time_minutes : Nat
  scopes : List String
  cache : List (String × String)
deriving Repr, DecidableEq

/-- The constructor arguments of the `DecisionTask(...)` context
(decision-task.py lines 27-32). -/
structure DecisionTaskConfig where
  projectName : String
  routePrefix : String
  dockerImageCacheExpiry : String
  workerType : String
deriving Repr, DecidableEq

/-- The `DecisionTask` context object constructed by `main`. -/
def servoDecisionConfig : DecisionTaskConfig :=
  { projectName := "Servo",
    routePrefix := "project.servo.servo",
    dockerImageCacheExpiry := "1 week",
    workerType := "servo-docker-worker" }

/-- The first `create_task_with_in_tree_dockerfile` call of `main`
(decision-task.py lines 34-44): the dev-mode build task.  The command
string is the Python triple-quoted literal verbatim, including its leading
newline and indentation. -/
def buildTask (scriptDir : String) : TaskDescriptor :=
  { task_name := "building for Linux x86_64 in dev mode",
    command := "\n            ./mach build --dev\n        ",
    env := some BUILD_ENV,
    dockerfile := dockerfile scriptDir "build-x86_64-linux",
    max_run_time_minutes := 3 * 60,
    scopes := CARGO_CACHE_SCOPES,
    cache := CARGO_CACHE }

/-- The second `create_task_with_in_tree_dockerfile` call of `main`
(decision-task.py lines 46-56): the tidy task.  No `env` keyword is
passed. -/
def tidyTask (scriptDir : String) : TaskDescriptor :=
  { task_name := "tidy",
    command := "\n            ./mach test-tidy --no-progress --all\n            ./mach test-tidy --no-progress --self-test\n        ",
    env := none,
    dockerfile := dockerfile scriptDir "build-x86_64-linux",
    max_run_time_minutes := 3 * 60,
    scopes := CARGO_CACHE_SCOPES,
    cache := CARGO_CACHE }

/-- Embedding of `main` (decision-task.py lines 26-56).  The external
`DecisionTask.create_task_with_in_tree_dockerfile` operation is an
abstract collaborator `submit` over a state `σ`; a call may raise, which is
modelled by returning `some e`.  `main` performs the two calls strictly in
source order; an error from the first call ends the run immediately (the
script has no `try`/`except`), so the second call is not evaluated and the
state at the error is the state left by the first call. -/
def mainRun {σ ε : Type} (scriptDir : String)
    (submit : σ → TaskDescriptor → σ × Option ε) (s : σ) : σ × Option ε :=
  let r1 := submit s (buildTask scriptDir)
  match r1.2 with
  | some e => (r1.1, some e)
  | none => submit r1.1 (tidyTask scriptDir)

/-- A pure recording collaborator: appends every submitted descriptor to a
log and never raises.  Used to observe which descriptors `main` submits and
in which order. -/
def recordSubmit : List TaskDescriptor → TaskDescriptor →
    List TaskDescriptor × Option Unit :=
  fun log t => (log ++ [t], none)

/-- The sequence of descriptors `main` submits, in submission order. -/
def mainTasks (scriptDir : String) : List TaskDescriptor :=
  (mainRun scriptDir recordSubmit []).1

/-- Exit status of the process for a given run outcome: Python terminates
with a non-zero status (1) when an exception propagates uncaught out of
`main`, and with 0 when `main` returns normally (the script's top level is
just `main()` with no exception handling). -/
def exitCode {σ ε : Type} (r : σ × Option ε) : Nat :=
  match r.2 with
  | some _ => 1
  | none => 0

/-- `pat` occurs as a literal substring of `s`. -/
def containsSubstr (s pat : String) : Prop :=
  ∃ a b, s = a ++ pat ++ b

end DecisionTaskScript

namespace DecisionTaskScript

/-- C1: for the fixed input (no command-line arguments), `main` submits
exactly two task descriptors to the `DecisionTask` context, in the fixed
order: the dev-mode build task first, then the tidy task second. -/
theorem main_submits_build_then_tidy (scriptDir : String) :
    mainTasks scriptDir = [buildTask scriptDir, tidyTask scriptDir] ∧
    (mainTasks scriptDir).length = 2 ∧
    (buildTask scriptDir).task_name = "building for Linux x86_64 in dev mode" ∧
    (tidyTask scriptDir).task_name = "tidy" := by
  refine ⟨rfl, rfl, rfl, rfl⟩

/-- C2: the build descriptor's command contains the literal substring
`./mach build --dev`, and the tidy descriptor's command contains both
`./mach test-tidy --no-progress --all` and
`./mach test-tidy --no-progress --self-test`. -/
theorem command_substrings (scriptDir : String) :
    containsSubstr (buildTask scriptDir).command "./mach build --dev" ∧
    containsSubstr (tidyTask scriptDir).command
      "./mach test-tidy --no-progress --all" ∧
    containsSubstr (tidyTask scriptDir).command
      "./mach test-tidy --no-progress --self-test" := by
  refine ⟨⟨"\n            ", "\n        ", rfl⟩,
    ⟨"\n            ",
     "\n            ./mach test-tidy --no-progress --self-test\n        ", rfl⟩,
    ⟨"\n            ./mach test-tidy --no-progress --all\n            ",
     "\n        ", rfl⟩⟩

/-- C3: the two submitted descriptors carry identical cache mappings and
identical scopes lists, equal to the fixed constants. -/
theorem cache_and_scopes_shared (scriptDir : String) :
    (buildTask scriptDir).cache = (tidyTask scriptDir).cache ∧
    (buildTask scriptDir).scopes = (tidyTask scriptDir).scopes ∧
    (buildTask scriptDir).cache =
      [("cargo-registry-cache", "/root/.cargo/registry"),
       ("cargo-git-cache", "/root/.cargo/git")] ∧
    (buildTask scriptDir).scopes =
      ["docker-worker:cache:cargo-registry-cache",
       "docker-worker:cache:cargo-git-cache"] := by
  refine ⟨rfl, rfl, rfl, rfl⟩

/-- C4: the build descriptor's environment mapping is exactly the four
fixed variables, while the tidy descriptor is submitted with no environment
mapping at all (the `env` keyword is absent). -/
theorem env_mappings (scriptDir : String) :
    (buildTask scriptDir).env =
      some [("RUST_BACKTRACE", "1"),
            ("RUSTFLAGS", "-Dwarnings"),
            ("CARGO_INCREMENTAL", "0"),
            ("SCCACHE_IDLE_TIMEOUT", "1200")] ∧
    (tidyTask scriptDir).env = none := by
  refine ⟨rfl, rfl⟩

/-- C5: if the first task-creation call (the build task) raises, the second
call (the tidy task) is never attempted: the run ends with exactly the
state left by the first call, the error propagates uncaught out of `main`,
and the process exits with a non-zero status. -/
theorem main_fail_fast {σ ε : Type} (scriptDir : String)
    (submit : σ → TaskDescriptor → σ × Option ε) (s : σ) (e : ε)
    (h : (submit s (buildTask scriptDir)).2 = some e) :
    mainRun scriptDir submit s = ((submit s (buildTask scriptDir)).1, some e) ∧
    exitCode (mainRun scriptDir submit s) ≠ 0 := by
  have hmain : mainRun scriptDir submit s =
      ((submit s (buildTask scriptDir)).1, some e) := by
    show (match (submit s (buildTask scriptDir)).2 with
      | some e => ((submit s (buildTask scriptDir)).1, some e)
      | none => submit (submit s (buildTask scriptDir)).1 (tidyTask scriptDir)) =
      ((submit s (buildTask scriptDir)).1, some e)
    rw [h]
  exact ⟨hmain, by rw [hmain]; simp [exitCode]⟩

/-- A collaborator that records the attempted call and raises on every
submission, used to witness the fail-fast behaviour of `main`. -/
def submitBoom : List TaskDescriptor → TaskDescriptor →
    List TaskDescriptor × Option String :=
  fun log t => (log ++ [t], some "task creation failed")

/-- Witness for C5 at a concrete collaborator and state: the run attempts
only the build task, returns its error, and exits non-zero. -/
theorem main_fail_fast_witness :
    (submitBoom [] (buildTask "/repo/etc/ci/taskcluster")).2 =
      some "task creation failed" ∧
    (mainRun "/repo/etc/ci/taskcluster" submitBoom [] =
      ([buildTask "/repo/etc/ci/taskcluster"], some "task creation failed") ∧
    exitCode (mainRun "/repo/etc/ci/taskcluster" submitBoom []) ≠ 0) :=
  ⟨rfl, main_fail_fast "/repo/etc/ci/taskcluster" submitBoom []
    "task creation failed" rfl⟩

/-- C6: for every name, the helper `dockerfile` returns the path obtained
by joining the script's own directory with `name + ".dockerfile"`, as a
total pure function (no existence check or other validation); in
particular, for `"build-x86_64-linux"` the result is the script's directory
followed by `build-x86_64-linux.dockerfile`. -/
theorem dockerfile_path (scriptDir : String) :
    (∀ name : String,
      dockerfile scriptDir name = osPathJoin scriptDir (name ++ ".dockerfile")) ∧
    ∃ p, (p = scriptDir ∨ p = scriptDir ++ "/") ∧
      dockerfile scriptDir "build-x86_64-linux" =
        p ++ "build-x86_64-linux.dockerfile" := by
  refine ⟨fun name => rfl, ?_⟩
  unfold dockerfile osPathJoin
  have habs : startsWithSep ("build-x86_64-linux" ++ ".dockerfile") = false := by
    decide
  rw [habs]
  simp only [Bool.false_eq_true, if_false]
  by_cases hd : (scriptDir == "" || endsWithSep scriptDir) = true
  · rw [if_pos hd]
    exact ⟨scriptDir, Or.inl rfl, rfl⟩
  · rw [if_neg hd]
    exact ⟨scriptDir ++ "/", Or.inr rfl, rfl⟩

/-- C7: every descriptor passed to the external submission call has a
non-empty name and a non-empty command. -/
theorem descriptors_nonempty (scriptDir : String) (t : TaskDescriptor)
    (h : t ∈ mainTasks scriptDir) :
    t.task_name ≠ "" ∧ t.command ≠ "" := by
  have hm : mainTasks scriptDir = [buildTask scriptDir, tidyTask scriptDir] := rfl
  rw [hm] at h
  rcases List.mem_pair.mp h with h1 | h2
  · subst h1
    exact ⟨by show ("building for Linux x86_64 in dev mode" : String) ≠ ""; decide,
      by show ("\n            ./mach build --dev\n        " : String) ≠ ""; decide⟩
  · subst h2
    refine ⟨by show ("tidy" : String) ≠ ""; decide, ?_⟩
    show ("\n            ./mach test-tidy --no-progress --all\n            ./mach test-tidy --no-progress --self-test\n        " : String) ≠ ""
    decide

/-- Witness for C7 at a concrete descriptor of a concrete run. -/
theorem descriptors_nonempty_witness :
    (buildTask "/repo" ∈ mainTasks "/repo") ∧
    ((buildTask "/repo").task_name ≠ "" ∧ (buildTask "/repo").command ≠ "") :=
  ⟨by simp [mainTasks, mainRun, recordSubmit],
   descriptors_nonempty "/repo" (buildTask "/repo")
     (by simp [mainTasks, mainRun, recordSubmit])⟩

/-- C8: the builder is deterministic: a run appends exactly the same pair
of descriptors to the log regardless of the prior state, never raises, and
two consecutive runs produce two structurally identical pairs. -/
theorem main_deterministic (scriptDir : String) (log : List TaskDescriptor) :
    (mainRun scriptDir recordSubmit log).1 = log ++ mainTasks scriptDir ∧
    (mainRun scriptDir recordSubmit log).2 = none ∧
    (mainRun scriptDir recordSubmit
      (mainRun scriptDir recordSubmit []).1).1 =
      mainTasks scriptDir ++ mainTasks scriptDir := by
  refine ⟨?_, rfl, rfl⟩
  simp [mainRun, recordSubmit, mainTasks]

/-- C9: both submitted descriptors use the identical dockerfile path; the
tidy task reuses `dockerfile("build-x86_64-linux")`, the same path as the
build task. -/
theorem same_dockerfile (scriptDir : String) :
    (buildTask scriptDir).dockerfile = (tidyTask scriptDir).dockerfile ∧
    (tidyTask scriptDir).dockerfile = dockerfile scriptDir "build-x86_64-linux" := by
  refine ⟨rfl, rfl⟩

/-- C10: both submitted descriptors carry the same `max_run_time_minutes`
value, exactly 180, computed as `3 * 60`. -/
theorem same_max_run_time (scriptDir : String) :
    (buildTask scriptDir).max_run_time_minutes = 3 * 60 ∧
    (tidyTask scriptDir).max_run_time_minutes = 3 * 60 ∧
    (buildTask scriptDir).max_run_time_minutes = 180 ∧
    (tidyTask scriptDir).max_run_time_minutes = 180 := by
  refine ⟨rfl, rfl, rfl, rfl⟩

end DecisionTaskScript
